import Mathlib

/-!
Verification development for the hello-pi-zero telemetry display.

Shallow embedding conventions:
- `chrono` timestamps are modelled as `Int` (an instant on a totally ordered
  time line; only comparisons matter to the code under study).
- `f32` temperature values are modelled as `Rat`; the code only moves them
  around and compares them against literal thresholds.
- `anyhow::Result<T>` is modelled as `Except Error T`, where `Error` carries
  the error classes named by the design (IoError, ProtocolError, DecodeError,
  DisplayError).
- Effectful inputs (device file content, HTTP responses) are passed to the
  embedded functions as explicit parameters describing the environment's
  behaviour for that one call.
-/

/-- The error classes of the design: sensor/device transport, missing or
malformed expiry metadata, malformed forecast payload, framebuffer
transport.  `anyhow::Error` values are classified into these. -/
inductive Error where
  | ioError (msg : String)
  | protocolError (msg : String)
  | decodeError (msg : String)
  | displayError (msg : String)
deriving DecidableEq

deriving instance DecidableEq for Except

/-! ## met.rs: forecast document -/

/-- `met.rs` `Details`: one sample's payload. -/
structure Details where
  air_temperature : Rat
deriving DecidableEq

/-- `met.rs` `Instant`. -/
structure Instant where
  details : Details
deriving DecidableEq

/-- `met.rs` `Data`. -/
structure Data where
  instant : Instant
deriving DecidableEq

/-- `met.rs` `Timeseries`: one timestamped sample. -/
structure Timeseries where
  time : Int
  data : Data
deriving DecidableEq

/-- `met.rs` `Properties`. -/
structure Properties where
  timeseries : List Timeseries
deriving DecidableEq

/-- `met.rs` `Response`: a decoded forecast document. -/
structure Response where
  properties : Properties
deriving DecidableEq

/-- `met.rs` `Response::next_n_hours`: keep the samples strictly after `dt`,
take at most the first `n` of them, and project each to its air
temperature.  Wrapped in `Ok` exactly as in the source, whose return type is
`Result<Vec<f32>>`. -/
def Response.next_n_hours (r : Response) (dt : Int) (n : Nat) :
    Except Error (List Rat) :=
  .ok ((((r.properties.timeseries.filter
      (fun e => decide (dt < e.time))).take n).map
    (fun e => e.data.instant.details.air_temperature)))

/-- A call to `next_n_hours` through the shared reference `&self`: it
returns the projection together with the (unchanged) document, making the
absence of mutation explicit in the embedding. -/
def next_n_hours_call (r : Response) (dt : Int) (n : Nat) :
    Except Error (List Rat) × Response :=
  (r.next_n_hours dt n, r)

/-- Claim C1: `next_n_hours(now, n)` keeps exactly the samples with
`time > now` (samples at `now` excluded), preserves the document's original
order, and returns `min n (number of strictly future samples)` elements;
a short series is returned as `Ok`, never as an error. -/
theorem next_n_hours_projection_correct (r : Response) (now : Int) (n : Nat) :
    (r.next_n_hours now n =
      .ok (((r.properties.timeseries.filter
          (fun e => decide (now < e.time))).take n).map
        (fun e => e.data.instant.details.air_temperature)))
    ∧ ((((r.properties.timeseries.filter
          (fun e => decide (now < e.time))).take n).map
        (fun e => e.data.instant.details.air_temperature)).length =
        min n (r.properties.timeseries.filter
          (fun e => decide (now < e.time))).length)
    ∧ List.Sublist
        (((r.properties.timeseries.filter
            (fun e => decide (now < e.time))).take n).map
          (fun e => e.data.instant.details.air_temperature))
        (r.properties.timeseries.map
          (fun e => e.data.instant.details.air_temperature))
    ∧ ((r.properties.timeseries.filter
        (fun e => decide (now < e.time))).all
        (fun e => decide (now < e.time)) = true) := by
  refine ⟨rfl, ?_, ?_, ?_⟩
  · simp [List.length_map, List.length_take]
  · exact ((List.take_sublist _ _).trans (List.filter_sublist _)).map _
  · simp [List.all_eq_true]

/-- Claim C9: despite its `Result` return type, `next_n_hours` never fails:
for every document, timestamp and count it returns `Ok` of a (possibly
empty) list. -/
theorem next_n_hours_never_fails (r : Response) (now : Int) (n : Nat) :
    ∃ l, r.next_n_hours now n = .ok l :=
  ⟨_, rfl⟩

/-- Claim C8: `next_n_hours` is pure: a call leaves the document unchanged,
and a second call with identical arguments on the document returned by the
first call yields the identical output. -/
theorem next_n_hours_pure (r : Response) (now : Int) (n : Nat) :
    (next_n_hours_call r now n).2 = r
    ∧ (next_n_hours_call (next_n_hours_call r now n).2 now n).1 =
        (next_n_hours_call r now n).1 :=
  ⟨rfl, rfl⟩

/-! ## onewire.rs: DS18B20 sensor -/

/-- `onewire.rs` `Ds18b20`: handle to the device file found by the one-time
startup scan. -/
structure Ds18b20 where
  path : String
deriving DecidableEq

/-- `str::trim`: strip whitespace from both ends of the content, modelled
on the character list of the string. -/
def trimAscii (cs : List Char) : List Char :=
  ((cs.dropWhile Char.isWhitespace).reverse.dropWhile Char.isWhitespace).reverse

/-- The numeric parse applied to the trimmed device-file content.  The
DS18B20 device node holds the temperature as a decimal integer in
milli-degrees (optionally negative), which is the content
`parse::<f32>()` is applied to in the source; the parse succeeds exactly
on a non-empty optionally-sign-prefixed digit string. -/
def parseMilli (cs : List Char) : Option Int :=
  match cs with
  | '-' :: ds =>
    if ds ≠ [] ∧ ds.all Char.isDigit then
      some (-(ds.foldl (fun acc c => acc * 10 + (c.toNat - 48)) 0 : Nat))
    else
      none
  | ds =>
    if ds ≠ [] ∧ ds.all Char.isDigit then
      some ((ds.foldl (fun acc c => acc * 10 + (c.toNat - 48)) 0 : Nat))
    else
      none

/-- `onewire.rs` `Ds18b20::read`: open and read the device file (the
outcome of that I/O is the explicit `file` parameter), trim the content,
parse it as a number in milli-degrees Celsius, and divide by 1000.  Both
the I/O failure and the parse failure surface as errors of the sensor
transport class. -/
def Ds18b20.read (d : Ds18b20) (file : Except Error String) :
    Except Error Rat :=
  match file with
  | .error e => .error e
  | .ok content =>
    match parseMilli (trimAscii content.data) with
    | some v => .ok ((v : Rat) / 1000)
    | none => .error (.ioError "invalid numeric literal")

/-- Claim C6: `read` returns the device file's textual integer content
interpreted as milli-degrees divided by 1000, and fails exactly when the
file cannot be read or its content cannot be parsed as a number. -/
theorem ds18b20_read_contract (d : Ds18b20) (file : Except Error String) :
    (∀ e, file = .error e → d.read file = .error e)
    ∧ (∀ s k, file = .ok s → parseMilli (trimAscii s.data) = some k →
        d.read file = .ok ((k : Rat) / 1000))
    ∧ (∀ s, file = .ok s → parseMilli (trimAscii s.data) = none →
        ∃ m, d.read file = .error (.ioError m)) := by
  refine ⟨?_, ?_, ?_⟩
  · intro e he
    simp [Ds18b20.read, he]
  · intro s k hs hk
    simp [Ds18b20.read, hs, hk]
  · intro s hs hk
    exact ⟨"invalid numeric literal", by simp [Ds18b20.read, hs, hk]⟩

/-- Witness for C6: the content "21500\n" (21.5 degrees as milli-degrees)
is read as 21.5, through `ds18b20_read_contract` applied at that concrete
input. -/
theorem ds18b20_read_contract_witness :
    Ds18b20.read ⟨"w1/28-0/temperature"⟩ (.ok "21500\n") =
      .ok ((21500 : Rat) / 1000) :=
  (ds18b20_read_contract ⟨"w1/28-0/temperature"⟩ (.ok "21500\n")).2.1
    "21500\n" 21500 rfl (by decide)

/-! ## main.rs: display model and tick orchestrator -/

/-- One draw command issued to the sh1106 display during a tick, in the
order the loop body issues them: clear the framebuffer, draw the huge
two-digit temperature, optionally a trend arrow, draw the small digits,
draw the danger icon, flush the framebuffer to the hardware. -/
inductive DrawCmd where
  | clear
  | drawDigitsHuge (digits : Nat)
  | arrowDown
  | arrowUp
  | drawDigitsSmall (digits : Nat)
  | drawDanger
  | flush
deriving DecidableEq

/-- Rust `as u8` on an `f32` value: saturating conversion truncating
toward zero. -/
def ratToU8 (x : Rat) : Nat :=
  if x < 0 then 0 else if 255 < x then 255 else x.floor.toNat

/-- `main.rs` `fallible_sleep`: wraps `tokio::time::sleep` so it can join
with fallible operations; it always completes with `Ok(())`. -/
def fallible_sleep : Except Error Unit := .ok ()

/-- `tokio::try_join!` on two branches: both are driven to completion of
the join; if any branch fails the join fails with that branch's error,
otherwise it yields the pair of results. -/
def try_join2 {α β : Type} (a : Except Error α) (b : Except Error β) :
    Except Error (α × β) :=
  match a, b with
  | .error e, _ => .error e
  | .ok _, .error e => .error e
  | .ok x, .ok y => .ok (x, y)

/-- The environment one loop iteration runs against: the outcome of the
DS18B20 sensor read for this tick, the health of the display transport
(`Ok` when the framebuffer draw calls succeed), and the outcome a
forecast fetch would have this tick.  The loop body in `main.rs` performs
no forecast call at all, so the `forecast` component describes the
environment only; `tick` never consults it. -/
structure TickInput where
  sensor : Except Error Rat
  display : Except Error Unit
  forecast : Except Error (List Rat)

/-- `main.rs` initial value of `last_temperature` before the first tick. -/
def initial_last_temperature : Rat := 20

/-- `main.rs` fixed cadence passed to `fallible_sleep` each tick. -/
def sleep_duration_ms : Nat := 1000

/-- One iteration of the `main.rs` loop: `try_join!` of the sensor read
and the cadence sleep; on join failure the iteration fails with that
error before anything is drawn.  On success the body computes
`difference = home_temperature - last_temperature`, updates
`last_temperature`, and issues the draw sequence — huge digits, a down
arrow exactly when `difference < -0.1`, an up arrow exactly when
`difference > 0.1`, small digits `72`, the danger icon, and the flush.
A failing display transport makes the first fallible draw call fail the
iteration; the commands of a completed (flushed) tick are returned
otherwise. -/
def tick (last_temperature : Rat) (inp : TickInput) :
    Except Error (Rat × List DrawCmd) :=
  match try_join2 inp.sensor fallible_sleep with
  | .error e => .error e
  | .ok (home_temperature, _) =>
    match inp.display with
    | .error e => .error e
    | .ok _ =>
      .ok (home_temperature,
        [DrawCmd.clear, DrawCmd.drawDigitsHuge (ratToU8 home_temperature)]
        ++ (if home_temperature - last_temperature < -(1 / 10 : Rat) then
              [DrawCmd.arrowDown] else [])
        ++ (if (1 / 10 : Rat) < home_temperature - last_temperature then
              [DrawCmd.arrowUp] else [])
        ++ [DrawCmd.drawDigitsSmall 72, DrawCmd.drawDanger, DrawCmd.flush])

/-- The `main.rs` loop run against a finite schedule of per-tick
environments: each iteration runs `tick`; the first failing iteration
ends the loop with that error and no further iteration begins, exactly
as `?` propagates the error out of `main`.  Returns the flushed frames
of the completed ticks and the terminating error, if any. -/
def runLoop (last_temperature : Rat) :
    List TickInput → List (List DrawCmd) × Option Error
  | [] => ([], none)
  | inp :: rest =>
    match tick last_temperature inp with
    | .error e => ([], some e)
    | .ok (t, cmds) =>
      ((cmds :: (runLoop t rest).1), (runLoop t rest).2)

/-- Claim C2 (amended): each iteration joins two concurrent operations —
the sensor read and the fixed cadence sleep; no forecast operation is
part of the join, so the tick's outcome is independent of the
environment's forecast availability, and a failed sensor read makes the
tick fail before any render. -/
theorem tick_joins_sensor_and_sleep (last : Rat) (inp : TickInput) :
    (∀ e, inp.sensor = .error e → tick last inp = .error e)
    ∧ (∀ f, tick last ⟨inp.sensor, inp.display, f⟩ = tick last inp) := by
  constructor
  · intro e he
    simp [tick, try_join2, he]
  · intro f
    simp [tick, try_join2, fallible_sleep]

/-- Witness for C2's theorem: a tick whose sensor read fails with an I/O
error fails with that error, through `tick_joins_sensor_and_sleep` at a
concrete input. -/
theorem tick_joins_sensor_and_sleep_witness :
    tick 20 ⟨.error (.ioError "w1 bus"), .ok (), .ok []⟩ =
      .error (.ioError "w1 bus") :=
  (tick_joins_sensor_and_sleep 20
    ⟨.error (.ioError "w1 bus"), .ok (), .ok []⟩).1 (.ioError "w1 bus") rfl

/-- Counterexample to claim C2 as stated: the loop does not join three
operations — on a tick whose forecast fetch outcome is a network failure
but whose sensor read and display succeed, a full render (ending in the
flush) is still produced, so a failing forecast operation does not
suppress the render. -/
theorem tick_renders_despite_forecast_failure :
    tick initial_last_temperature
      ⟨.ok 25, .ok (), .error (.ioError "network unreachable")⟩ =
      .ok (25,
        [DrawCmd.clear, DrawCmd.drawDigitsHuge (ratToU8 25), DrawCmd.arrowUp,
         DrawCmd.drawDigitsSmall 72, DrawCmd.drawDanger, DrawCmd.flush]) := by
  norm_num [tick, try_join2, fallible_sleep, initial_last_temperature]

/-- Claim C7: the first failing tick terminates the loop with that tick's
error: nothing is rendered from it, and no subsequent tick begins — the
result does not depend on the rest of the schedule. -/
theorem loop_terminates_at_first_failing_tick (last : Rat) (inp : TickInput)
    (rest : List TickInput) (e : Error) (h : tick last inp = .error e) :
    runLoop last (inp :: rest) = ([], some e) := by
  simp [runLoop, h]

/-- Witness for C7: with a failed sensor read on the first tick and one
more tick scheduled after it, the loop ends at once with the I/O error,
through `loop_terminates_at_first_failing_tick` at a concrete input. -/
theorem loop_terminates_at_first_failing_tick_witness :
    runLoop 20
      (⟨.error (.ioError "w1 bus"), .ok (), .ok []⟩ ::
        [⟨.ok 25, .ok (), .ok []⟩]) = ([], some (.ioError "w1 bus")) :=
  loop_terminates_at_first_failing_tick 20
    ⟨.error (.ioError "w1 bus"), .ok (), .ok []⟩
    [⟨.ok 25, .ok (), .ok []⟩] (.ioError "w1 bus") rfl

/-- Claim C10: on a successful tick the trend indicator follows the
difference between the tick's temperature and the previous tick's with a
0.1 dead band: the down arrow is drawn iff the difference is strictly
below -0.1, the up arrow iff strictly above 0.1 (so neither is drawn on
a difference within the band), and the baseline of the first tick is the
initial value 20. -/
theorem trend_indicator_dead_band (last t : Rat) (inp : TickInput)
    (out : Rat × List DrawCmd) (hs : inp.sensor = .ok t)
    (hd : inp.display = .ok ()) (h : tick last inp = .ok out) :
    (DrawCmd.arrowDown ∈ out.2 ↔ t - last < -(1 / 10 : Rat))
    ∧ (DrawCmd.arrowUp ∈ out.2 ↔ (1 / 10 : Rat) < t - last)
    ∧ initial_last_temperature = 20 := by
  simp [tick, try_join2, fallible_sleep, hs, hd] at h
  subst h
  refine ⟨?_, ?_, rfl⟩
  · by_cases hdn : t - last < -(1 / 10 : Rat) <;>
      by_cases hup : (1 / 10 : Rat) < t - last <;>
      simp [hdn, hup]
  · by_cases hdn : t - last < -(1 / 10 : Rat) <;>
      by_cases hup : (1 / 10 : Rat) < t - last <;>
      simp [hdn, hup]

/-- Witness for C10: on a first tick reading 25 degrees (baseline 20),
the up arrow is drawn and the down arrow is not, through
`trend_indicator_dead_band` at a concrete input. -/
theorem trend_indicator_dead_band_witness :
    (DrawCmd.arrowDown ∈
        [DrawCmd.clear, DrawCmd.drawDigitsHuge (ratToU8 25), DrawCmd.arrowUp,
         DrawCmd.drawDigitsSmall 72, DrawCmd.drawDanger, DrawCmd.flush] ↔
      (25 : Rat) - 20 < -(1 / 10 : Rat))
    ∧ (DrawCmd.arrowUp ∈
        [DrawCmd.clear, DrawCmd.drawDigitsHuge (ratToU8 25), DrawCmd.arrowUp,
         DrawCmd.drawDigitsSmall 72, DrawCmd.drawDanger, DrawCmd.flush] ↔
      (1 / 10 : Rat) < (25 : Rat) - 20)
    ∧ initial_last_temperature = 20 :=
  trend_indicator_dead_band 20 25
    ⟨.ok 25, .ok (), .ok []⟩
    (25, [DrawCmd.clear, DrawCmd.drawDigitsHuge (ratToU8 25), DrawCmd.arrowUp,
          DrawCmd.drawDigitsSmall 72, DrawCmd.drawDanger, DrawCmd.flush])
    rfl rfl (by norm_num [tick, try_join2, fallible_sleep])

/-! ## ForecastCache

The repository ships only the building blocks of the forecast path under
`src/`: `met.rs` declares the HTTP client (returning the raw response)
and the document types with their projection.  The cache that owns the
decoded document and its expiry — the consumer of those declarations —
is not part of the sources provided, so it is modelled from the spec
below. -/

/-- Modelled from the spec: the `expires` header of the fetched response
as the cache sees it — absent (a hard failure), present but not
parseable as a timestamp, or parsed into a timestamp. -/
inductive ExpiresHeader where
  | absent
  | malformed
  | parsed (t : Int)
deriving DecidableEq

/-- Modelled from the spec: the response body as the cache sees it —
either undecodable or decoded into a forecast document. -/
inductive FetchBody where
  | malformed
  | decoded (doc : Response)
deriving DecidableEq

/-- Modelled from the spec: a fetched upstream response, carrying the
expiry metadata and the body. -/
structure FetchResponse where
  expires : ExpiresHeader
  body : FetchBody
deriving DecidableEq

/-- Modelled from the spec: `ForecastCacheEntry`
`{ decoded_document, expires_at }`, owned exclusively by the cache. -/
structure ForecastCacheEntry where
  decoded_document : Response
  expires_at : Int
deriving DecidableEq

/-- Modelled from the spec: `ForecastCache` — one cache slot holding the
last decoded forecast plus its expiry, empty before the first successful
fetch. -/
structure ForecastCache where
  entry : Option ForecastCacheEntry
deriving DecidableEq

/-- Modelled from the spec: the refresh path of `ForecastCache.get` (spec
section 4.2, step 2).  `upstream` is the outcome the one network fetch
has in this call's environment.  Extract the expiry header (absence or a
malformed value is a ProtocolError), decode the body (DecodeError if
malformed), replace the stored entry wholesale, and project the fresh
document with `next_n_hours(now, 48)`.  On any failure the previous
cache value is returned untouched.  The result triple is
(projection or error, cache state after the call, number of network
fetches performed). -/
def ForecastCache.refresh (c : ForecastCache) (now : Int)
    (upstream : Except Error FetchResponse) :
    Except Error (List Rat) × ForecastCache × Nat :=
  match upstream with
  | .error e => (.error e, c, 1)
  | .ok resp =>
    match resp.expires with
    | .absent => (.error (.protocolError "missing expires header"), c, 1)
    | .malformed => (.error (.protocolError "malformed expires header"), c, 1)
    | .parsed t =>
      match resp.body with
      | .malformed => (.error (.decodeError "malformed body"), c, 1)
      | .decoded doc =>
        (doc.next_n_hours now 48, ⟨some ⟨doc, t⟩⟩, 1)

/-- Modelled from the spec: `ForecastCache.get(now)` (spec section 4.2).
If an entry exists and `now < entry.expires_at`, project the cached
document with `next_n_hours(now, 48)` and return it with no network
fetch; otherwise run the refresh path. -/
def ForecastCache.get (c : ForecastCache) (now : Int)
    (upstream : Except Error FetchResponse) :
    Except Error (List Rat) × ForecastCache × Nat :=
  match c.entry with
  | some e =>
    if now < e.expires_at then
      (e.decoded_document.next_n_hours now 48, c, 0)
    else
      c.refresh now upstream
  | none => c.refresh now upstream

/-- Claim C3: after initial population, a `get` with `now` strictly
before the stored expiry performs zero fetches, serves the projection of
the stored document and leaves the cache unchanged; a `get` with `now`
at or after the expiry runs the refresh path and performs exactly one
fetch — never a refetch before expiry, never the stale entry past it. -/
theorem forecast_cache_expiry_respected (c : ForecastCache)
    (entry : ForecastCacheEntry) (now : Int)
    (upstream : Except Error FetchResponse) (h : c.entry = some entry) :
    (now < entry.expires_at →
      (c.get now upstream).2.2 = 0
      ∧ (c.get now upstream).1 =
          entry.decoded_document.next_n_hours now 48
      ∧ (c.get now upstream).2.1 = c)
    ∧ (entry.expires_at ≤ now →
      c.get now upstream = c.refresh now upstream
      ∧ (c.get now upstream).2.2 = 1) := by
  constructor
  · intro hlt
    simp [ForecastCache.get, h, hlt]
  · intro hge
    have hnlt : ¬now < entry.expires_at := not_lt.mpr hge
    refine ⟨by simp [ForecastCache.get, h, hnlt], ?_⟩
    simp only [ForecastCache.get, h, hnlt, if_false]
    rcases upstream with e | resp
    · rfl
    · rcases resp with ⟨he, hb⟩
      rcases he with _ | _ | t
      · rfl
      · rfl
      · rcases hb with _ | doc <;> rfl

/-- Witness for C3: a populated cache with expiry 600 performs no fetch
at `now = 300` and exactly one fetch at `now = 600`, through
`forecast_cache_expiry_respected` at concrete inputs. -/
theorem forecast_cache_expiry_respected_witness :
    ((ForecastCache.get ⟨some ⟨⟨⟨[]⟩⟩, 600⟩⟩ 300
        (.ok ⟨.parsed 1200, .decoded ⟨⟨[]⟩⟩⟩)).2.2 = 0)
    ∧ ((ForecastCache.get ⟨some ⟨⟨⟨[]⟩⟩, 600⟩⟩ 600
        (.ok ⟨.parsed 1200, .decoded ⟨⟨[]⟩⟩⟩)).2.2 = 1) :=
  ⟨((forecast_cache_expiry_respected ⟨some ⟨⟨⟨[]⟩⟩, 600⟩⟩ ⟨⟨⟨[]⟩⟩, 600⟩ 300
      (.ok ⟨.parsed 1200, .decoded ⟨⟨[]⟩⟩⟩) rfl).1 (by decide)).1,
   ((forecast_cache_expiry_respected ⟨some ⟨⟨⟨[]⟩⟩, 600⟩⟩ ⟨⟨⟨[]⟩⟩, 600⟩ 600
      (.ok ⟨.parsed 1200, .decoded ⟨⟨[]⟩⟩⟩) rfl).2 (by decide)).2⟩

/-- The four failure points of the fetch path: the fetch itself, the
header extraction, the expiry parse, and the body decode. -/
def fetchPathFails (upstream : Except Error FetchResponse) : Prop :=
  (∃ e, upstream = .error e)
  ∨ (∃ r, upstream = .ok r ∧ r.expires = .absent)
  ∨ (∃ r, upstream = .ok r ∧ r.expires = .malformed)
  ∨ (∃ r, upstream = .ok r ∧ r.body = .malformed)

/-- Claim C4: a refresh attempt that fails at any point of the fetch
path leaves the cache exactly as it was — also through `get` — and the
failure propagates to the caller as an error. -/
theorem forecast_cache_preserved_on_failed_refresh (c : ForecastCache)
    (now : Int) (upstream : Except Error FetchResponse)
    (h : fetchPathFails upstream) :
    (c.refresh now upstream).2.1 = c
    ∧ (∃ e, (c.refresh now upstream).1 = .error e)
    ∧ (c.get now upstream).2.1 = c := by
  have key : (c.refresh now upstream).2.1 = c
      ∧ ∃ e, (c.refresh now upstream).1 = .error e := by
    rcases h with ⟨e, he⟩ | ⟨r, hr, habs⟩ | ⟨r, hr, hmal⟩ | ⟨r, hr, hbody⟩
    · subst he
      exact ⟨rfl, _, rfl⟩
    · subst hr
      rcases r with ⟨he, hb⟩
      cases habs
      exact ⟨rfl, _, rfl⟩
    · subst hr
      rcases r with ⟨he, hb⟩
      cases hmal
      exact ⟨rfl, _, rfl⟩
    · subst hr
      rcases r with ⟨he, hb⟩
      cases hbody
      rcases he with _ | _ | t
      · exact ⟨rfl, _, rfl⟩
      · exact ⟨rfl, _, rfl⟩
      · exact ⟨rfl, _, rfl⟩
  refine ⟨key.1, key.2, ?_⟩
  rcases c with ⟨_ | entry⟩
  · simpa [ForecastCache.get] using key.1
  · by_cases hlt : now < entry.expires_at
    · simp [ForecastCache.get, hlt]
    · simpa [ForecastCache.get, hlt] using key.1

/-- Witness for C4: a network failure during refresh leaves a populated
cache unchanged and surfaces an error, through
`forecast_cache_preserved_on_failed_refresh` at a concrete input. -/
theorem forecast_cache_preserved_on_failed_refresh_witness :
    (ForecastCache.refresh ⟨some ⟨⟨⟨[]⟩⟩, 600⟩⟩ 900
        (.error (.ioError "connection reset"))).2.1 = ⟨some ⟨⟨⟨[]⟩⟩, 600⟩⟩
    ∧ (∃ e, (ForecastCache.refresh ⟨some ⟨⟨⟨[]⟩⟩, 600⟩⟩ 900
        (.error (.ioError "connection reset"))).1 = .error e)
    ∧ (ForecastCache.get ⟨some ⟨⟨⟨[]⟩⟩, 600⟩⟩ 900
        (.error (.ioError "connection reset"))).2.1 = ⟨some ⟨⟨⟨[]⟩⟩, 600⟩⟩ :=
  forecast_cache_preserved_on_failed_refresh ⟨some ⟨⟨⟨[]⟩⟩, 600⟩⟩ 900
    (.error (.ioError "connection reset"))
    (Or.inl ⟨.ioError "connection reset", rfl⟩)

/-- Claim C5: on the cache-miss path with a completed fetch, `get` fails
with a ProtocolError exactly when the expiry header is absent or cannot
be parsed into a timestamp; with a well-formed header it gets past that
step (any remaining failure is a DecodeError, never a ProtocolError). -/
theorem forecast_cache_protocol_error_iff_bad_expiry (c : ForecastCache)
    (now : Int) (r : FetchResponse)
    (hmiss : c.entry = none
      ∨ ∃ entry, c.entry = some entry ∧ entry.expires_at ≤ now) :
    (∃ m, (c.get now (.ok r)).1 = .error (.protocolError m)) ↔
      (r.expires = .absent ∨ r.expires = .malformed) := by
  have hget : c.get now (.ok r) = c.refresh now (.ok r) := by
    rcases hmiss with hnone | ⟨entry, hsome, hge⟩
    · simp [ForecastCache.get, hnone]
    · simp [ForecastCache.get, hsome, not_lt.mpr hge]
  rw [hget]
  rcases r with ⟨he, hb⟩
  rcases he with _ | _ | t
  · simp [ForecastCache.refresh]
  · simp [ForecastCache.refresh]
  · rcases hb with _ | doc
    · simp [ForecastCache.refresh]
    · simp [ForecastCache.refresh, Response.next_n_hours]

/-- Witness for C5: on an empty cache, a fetched response without an
expires header makes `get` fail with a ProtocolError, through
`forecast_cache_protocol_error_iff_bad_expiry` at a concrete input. -/
theorem forecast_cache_protocol_error_iff_bad_expiry_witness :
    ∃ m, (ForecastCache.get ⟨none⟩ 0
        (.ok ⟨.absent, .decoded ⟨⟨[]⟩⟩⟩)).1 = .error (.protocolError m) :=
  (forecast_cache_protocol_error_iff_bad_expiry ⟨none⟩ 0
    ⟨.absent, .decoded ⟨⟨[]⟩⟩⟩ (Or.inl rfl)).mpr (Or.inl rfl)
